import Mathlib

/-!
Shallow embedding of the `UnifyGenerator` component
(`src/integrations/unify/src/unify integeration/unify.py`) of the
haystack-core-integrations repository, together with theorems checking the
repository's specification against it.

Python dictionaries with string keys are embedded as association lists over a
small JSON-like value type; Python exceptions become `Except` results.  The
external collaborators that the component calls (the haystack `Secret`
credential helper, `default_to_dict`, and the provider SDK client) are
modelled explicitly, following their documented contracts, since the spec
declares them out of scope for the repository itself.
-/

set_option autoImplicit false

namespace UnifySpec

/-- A JSON-like value, the embedding of the Python values that appear in the
component's option mappings, serialized state and provider responses. -/
inductive Value where
  | null
  | bool (b : Bool)
  | int (n : Int)
  | str (s : String)
  | list (items : List Value)
  | dict (entries : List (String × Value))

/-- A Python `dict` with string keys, embedded as an association list
(first occurrence of a key wins on lookup; well-formed dicts have no
duplicate keys). -/
abbrev Dict := List (String × Value)

/-- `d[k]` lookup on an embedded dict: the value at the first entry whose key
equals `k`, if any. -/
def dictLookup (d : Dict) (k : String) : Option Value :=
  match d with
  | [] => none
  | (k', v) :: rest => if k' == k then some v else dictLookup rest k

/-- `k in d` on an embedded dict. -/
def dictContains (d : Dict) (k : String) : Bool :=
  (dictLookup d k).isSome

/-- Python dict union of `a` and `b` (the double-star spread of `a` followed
by `b`): entries of `b` override same-keyed entries of `a`.  Embedded as the
entries of `a` whose key does not occur in `b`, followed by all entries of
`b`; this has exactly the lookup behaviour and key set of the Python dict. -/
def dictUnion (a b : Dict) : Dict :=
  a.filter (fun e => !(dictContains b e.1)) ++ b

/-- `OccursIn s v` holds when the string `s` appears anywhere inside the
value `v`: as a string leaf, or as a key or inside a value of a nested dict.
Used to state that the resolved secret never appears in exported state. -/
inductive OccursIn (s : String) : Value → Prop where
  | str : OccursIn s (.str s)
  | item {items : List Value} {v : Value} : v ∈ items → OccursIn s v → OccursIn s (.list items)
  | key {entries : List (String × Value)} {v : Value} : (s, v) ∈ entries → OccursIn s (.dict entries)
  | val {entries : List (String × Value)} {k : String} {v : Value} :
      (k, v) ∈ entries → OccursIn s v → OccursIn s (.dict entries)

/-- An environment: the mapping of environment-variable names to values that
backs credential resolution. -/
abbrev Env := List (String × String)

/-- Environment-variable lookup. -/
def envLookup (env : Env) (k : String) : Option String :=
  match env with
  | [] => none
  | (k', v) :: rest => if k' == k then some v else envLookup rest k

/-- The Python exceptions that can escape the component's methods. -/
inductive UnifyError where
  | valueError (msg : String)
  | nameError (missing : String)
  | keyError (key : String)
  | providerError (msg : String)

/-- Modelled from the documented contract of the external haystack
`haystack.utils.Secret` collaborator (out of scope for this repository per
the spec): a credential is either a raw token or a reference to a list of
environment variables, with a strictness flag. -/
inductive Secret where
  | token (value : String)
  | envVar (vars : List String) (strict : Bool)

/-- Modelled external collaborator: `Secret.resolve_value`.  A token secret
resolves to its token; an environment-variable secret resolves to the first
set variable, and when none is set it raises `ValueError` if strict and
resolves to `None` otherwise. -/
def Secret.resolveValue (s : Secret) (env : Env) : Except UnifyError (Option String) :=
  match s with
  | .token v => .ok (some v)
  | .envVar vars strict =>
      match vars.findSome? (fun n => envLookup env n) with
      | some v => .ok (some v)
      | none =>
          if strict then .error (.valueError "None of the authentication environment variables are set")
          else .ok none

/-- Modelled external collaborator: `Secret.to_dict`.  An
environment-variable secret serializes to its reference form (type tag,
variable names, strictness) and never to a resolved value; a token-based
secret cannot be serialized and raises `ValueError`. -/
def Secret.to_dict (s : Secret) : Except UnifyError Value :=
  match s with
  | .token _ => .error (.valueError "Cannot serialize token-based secret")
  | .envVar vars strict =>
      .ok (.dict [("type", .str "env_var"),
                  ("env_vars", .list (vars.map Value.str)),
                  ("strict", .bool strict)])

/-- The streaming callback type of the component
(Python `Callable[[str], None]`). -/
abbrev Callback := String → Unit

/-- The provider SDK client handle (the `Unify` object the component builds
at construction and holds).  Its `generate` behaviour is opaque to the
adapter: it is an arbitrary function from prompt and keyword options to a
response mapping or a raised error. -/
structure Client where
  model : String
  api_key : Option String
  generate : String → Dict → Except UnifyError Dict

/-- The `UnifyGenerator` component state: the attributes assigned in
`__init__`. -/
structure UnifyGenerator where
  api_key : Secret
  model : String
  generation_kwargs : Dict
  streaming_callback : Option Callback
  client : Client

/-- `UnifyGenerator.ALLOWED_PARAMS`. -/
def ALLOWED_PARAMS : List String := ["max_tokens", "temperature"]

/-- The default of the `model` parameter of `__init__`. -/
def DEFAULT_MODEL : String := "mistral-7b-instruct-v0.2@fireworks-ai"

/-- The default of the `api_key` parameter of `__init__`:
`Secret.from_env_var("UNIFY_API_KEY")` (strict). -/
def defaultApiKey : Secret := .envVar ["UNIFY_API_KEY"] true

/-- Membership of a key in `ALLOWED_PARAMS` (`k in self.ALLOWED_PARAMS`). -/
def allowedKey (k : String) : Bool := ALLOWED_PARAMS.contains k

/-- `UnifyGenerator.__init__`, embedded with the ambient environment and the
provider-client constructor (`Unify`) passed explicitly.  The attributes are
assigned and then the client is built from the model id and the resolved
credential value; a credential-resolution error propagates, and the
provider-client constructor, whose behaviour is out of scope, is modelled as
total, so resolution is the only failure mode here. -/
def UnifyGenerator.construct (env : Env) (unify : String → Option String → Client)
    (api_key : Secret) (model : String) (streaming_callback : Option Callback)
    (generation_kwargs : Option Dict) : Except UnifyError UnifyGenerator :=
  match api_key.resolveValue env with
  | .error e => .error e
  | .ok v => .ok ⟨api_key, model, generation_kwargs.getD [], streaming_callback, unify model v⟩

/-- Modelled external collaborator: haystack `default_to_dict`, which wraps
the init parameters under an `init_parameters` key next to the qualified
class name under a `type` key. -/
def default_to_dict (typeName : String) (init_parameters : Dict) : Value :=
  .dict [("type", .str typeName), ("init_parameters", .dict init_parameters)]

/-- The qualified class name that `default_to_dict` records for this
component. -/
def TYPE_NAME : String := "unify integeration.unify.UnifyGenerator"

/-- `UnifyGenerator.to_dict`.  The first statement evaluates
`serialize_callable(self.streaming_callback) if self.streaming_callback else None`;
the module never binds the name `serialize_callable` (it is absent from the
imports), so under Python semantics a non-None callback raises `NameError`
there, while a `None` callback skips that branch.  Then the credential is
serialized via `self.api_key.to_dict()` (which can itself raise) and the
state mapping is assembled by `default_to_dict`. -/
def UnifyGenerator.to_dict (self : UnifyGenerator) : Except UnifyError Value :=
  match self.streaming_callback with
  | some _ => .error (.nameError "serialize_callable")
  | none =>
      match self.api_key.to_dict with
      | .error e => .error e
      | .ok apiKeyDict =>
          .ok (default_to_dict TYPE_NAME
            [("model", .str self.model),
             ("streaming_callback", .null),
             ("generation_kwargs", .dict self.generation_kwargs),
             ("api_key", apiKeyDict)])

/-- `UnifyGenerator.from_dict`.  Its first statement calls
`deserialize_secrets_inplace(data["init_parameters"], keys=["api_key"])`, but
the module never binds the name `deserialize_secrets_inplace` (it is absent
from the imports), and Python evaluates the callee before its arguments, so
the call raises `NameError` before the state mapping is inspected, for every
input. -/
def UnifyGenerator.from_dict (_data : Value) : Except UnifyError UnifyGenerator :=
  .error (.nameError "deserialize_secrets_inplace")

/-- The merge of the configured default options with the per-call options
(the first statement of `run`): Python dict union, per-call entries
overriding same-keyed defaults, with an absent per-call mapping read as
empty. -/
def mergedKwargs (defaults : Dict) (callKwargs : Option Dict) : Dict :=
  dictUnion defaults (callKwargs.getD [])

/-- The allow-list filter of `run` (its second statement): the dict
comprehension keeping exactly the entries whose key is in
`ALLOWED_PARAMS`. -/
def filteredKwargs (kwargs : Dict) : Dict :=
  kwargs.filter (fun e => allowedKey e.1)

/-- The fixed-shape mapping `run` returns: a `replies` sequence and a `meta`
value. -/
structure RunOutput where
  replies : List Value
  meta : Value

/-- `UnifyGenerator.run`, embedded in explicit state-passing style (the
returned first component is the component state after the call; the method
body only reads `self`, so it is returned unchanged on every path).  The
merged options are filtered to the allow-list, the client's `generate` is
invoked once with the prompt and the filtered options, and the response is
reshaped: `replies` is the one-element list holding `response["text"]`
(a missing `text` key raises `KeyError`), and `meta` is
`response.get("meta", default empty dict)`.  A error raised by `generate`
propagates unchanged. -/
def UnifyGenerator.run (self : UnifyGenerator) (prompt : String)
    (generation_kwargs : Option Dict) : UnifyGenerator × Except UnifyError RunOutput :=
  let gk := mergedKwargs self.generation_kwargs generation_kwargs
  let fk := filteredKwargs gk
  match self.client.generate prompt fk with
  | .error e => (self, .error e)
  | .ok response =>
      match dictLookup response "text" with
      | none => (self, .error (.keyError "text"))
      | some text => (self, .ok ⟨[text], (dictLookup response "meta").getD (.dict [])⟩)

/-- The fixed strings that `to_dict` itself contributes to the exported
mapping (key names, the type tag and the credential reference tag), apart
from the component's own model id, option entries and environment-variable
names. -/
def exportFixedStrings : List String :=
  [TYPE_NAME, "type", "init_parameters", "model", "streaming_callback",
   "generation_kwargs", "api_key", "env_var", "env_vars", "strict"]

/-! Helper lemmas about embedded dicts. -/

theorem dictLookup_append (a b : Dict) (k : String) :
    dictLookup (a ++ b) k = (dictLookup a k).orElse (fun _ => dictLookup b k) := by
  induction a with
  | nil => simp [dictLookup, Option.orElse]
  | cons e rest ih =>
    obtain ⟨k', v⟩ := e
    cases hk : k' == k <;> simp [dictLookup, hk, ih, Option.orElse]

theorem dictLookup_filterKey (q : String → Bool) (d : Dict) (k : String) :
    dictLookup (d.filter (fun e => q e.1)) k = if q k then dictLookup d k else none := by
  induction d with
  | nil => simp [dictLookup]
  | cons e rest ih =>
    obtain ⟨k', v⟩ := e
    cases hq : q k' <;> cases hk : k' == k <;>
      simp_all [dictLookup, List.filter]

theorem dictContains_filterKey (q : String → Bool) (d : Dict) (k : String) :
    dictContains (d.filter (fun e => q e.1)) k = (q k && dictContains d k) := by
  simp only [dictContains, dictLookup_filterKey]
  cases q k <;> simp

theorem filteredKwargs_union (a b : Dict) :
    filteredKwargs (dictUnion a b) = dictUnion (filteredKwargs a) (filteredKwargs b) := by
  unfold filteredKwargs dictUnion
  rw [List.filter_append, List.filter_filter, List.filter_filter]
  congr 1
  apply List.filter_congr
  intro e _
  rw [dictContains_filterKey]
  cases h : allowedKey e.1 <;> simp [h]

theorem filteredKwargs_idem (d : Dict) : filteredKwargs (filteredKwargs d) = filteredKwargs d := by
  unfold filteredKwargs
  rw [List.filter_filter]
  apply List.filter_congr
  intro e _
  cases allowedKey e.1 <;> simp

/-! Helper lemmas inverting `OccursIn` on each value shape. -/

@[simp] theorem occursIn_null (s : String) : OccursIn s .null ↔ False := by
  constructor
  · intro h; cases h
  · intro h; cases h

@[simp] theorem occursIn_bool (s : String) (b : Bool) : OccursIn s (.bool b) ↔ False := by
  constructor
  · intro h; cases h
  · intro h; cases h

@[simp] theorem occursIn_int (s : String) (n : Int) : OccursIn s (.int n) ↔ False := by
  constructor
  · intro h; cases h
  · intro h; cases h

@[simp] theorem occursIn_str (s t : String) : OccursIn s (.str t) ↔ s = t := by
  constructor
  · intro h; cases h; rfl
  · intro h; subst h; exact .str

@[simp] theorem occursIn_list (s : String) (items : List Value) :
    OccursIn s (.list items) ↔ ∃ v ∈ items, OccursIn s v := by
  constructor
  · intro h
    cases h with
    | item hmem hocc => exact ⟨_, hmem, hocc⟩
  · rintro ⟨v, hmem, hocc⟩
    exact .item hmem hocc

@[simp] theorem occursIn_dict (s : String) (entries : List (String × Value)) :
    OccursIn s (.dict entries) ↔ ∃ p ∈ entries, s = p.1 ∨ OccursIn s p.2 := by
  constructor
  · intro h
    cases h with
    | key hmem => exact ⟨_, hmem, Or.inl rfl⟩
    | val hmem hocc => exact ⟨_, hmem, Or.inr hocc⟩
  · rintro ⟨⟨k, v⟩, hmem, h | h⟩
    · subst h; exact .key hmem
    · exact .val hmem h

/-- C1: for every merged options mapping built by `run`, the mapping
forwarded to the provider client's `generate` call has only keys in the
allow-list `ALLOWED_PARAMS`; every other key of the merged mapping is
silently dropped, never rejected — the call's outcome is identical to the
outcome on the inputs with the non-allow-listed entries already removed. -/
theorem run_forwards_only_allowlisted_options (g : UnifyGenerator) (prompt : String)
    (ckw : Dict) :
    ((filteredKwargs (mergedKwargs g.generation_kwargs (some ckw))).all
        (fun e => allowedKey e.1) = true)
    ∧ (g.run prompt (some ckw)).2 =
        (UnifyGenerator.run
          ⟨g.api_key, g.model, filteredKwargs g.generation_kwargs, g.streaming_callback, g.client⟩
          prompt (some (filteredKwargs ckw))).2 := by
  constructor
  · rw [List.all_eq_true]
    intro e he
    exact (List.mem_filter.mp he).2
  · have hfk : filteredKwargs (mergedKwargs g.generation_kwargs (some ckw))
        = filteredKwargs (mergedKwargs (filteredKwargs g.generation_kwargs)
            (some (filteredKwargs ckw))) := by
      unfold mergedKwargs
      simp only [Option.getD_some]
      rw [filteredKwargs_union, filteredKwargs_union, filteredKwargs_idem, filteredKwargs_idem]
    unfold UnifyGenerator.run
    dsimp only
    rw [hfk]
    split
    · rfl
    · split <;> rfl

/-- C5: when `run` merges the configured default options with the per-call
options, a key present in the per-call mapping takes its value from the
per-call mapping (per-call overrides win on key collision). -/
theorem per_call_options_override_defaults (defaults ckw : Dict) (k : String)
    (h : dictContains ckw k = true) :
    dictLookup (mergedKwargs defaults (some ckw)) k = dictLookup ckw k := by
  unfold mergedKwargs dictUnion
  simp only [Option.getD_some]
  rw [dictLookup_append, dictLookup_filterKey (fun x => !dictContains ckw x)]
  simp [h, Option.orElse]

/-- Witness for C5 at a concrete collision: the per-call temperature wins
over the default one. -/
theorem per_call_options_override_defaults_witness :
    dictLookup (mergedKwargs [("temperature", .int 0)] (some [("temperature", .int 1)]))
      "temperature" = some (.int 1) :=
  per_call_options_override_defaults [("temperature", .int 0)] [("temperature", .int 1)]
    "temperature" rfl

/-- C4: whenever the provider client returns a response mapping containing a
`text` key, `run` returns the output whose `replies` is exactly the
one-element sequence holding the response's `text` value and whose `meta` is
the response's `meta` value if present and the empty mapping otherwise
(`Option.getD` of the `meta` lookup with the empty-dict default is literally
the embedding of `response.get` with an empty-dict default). -/
theorem run_reshapes_provider_response (g : UnifyGenerator) (prompt : String)
    (ckw : Option Dict) (response : Dict) (text : Value)
    (hgen : g.client.generate prompt
        (filteredKwargs (mergedKwargs g.generation_kwargs ckw)) = .ok response)
    (htext : dictLookup response "text" = some text) :
    (g.run prompt ckw).2 =
      .ok ⟨[text], (dictLookup response "meta").getD (.dict [])⟩ := by
  simp [UnifyGenerator.run, hgen, htext]

/-- Witness for C4, matching the spec's own test: a stub client returning a
mapping with text "hi" and no meta yields replies ["hi"] and an empty meta
mapping. -/
theorem run_reshapes_provider_response_witness :
    (UnifyGenerator.run
      ⟨defaultApiKey, "m", [], none, ⟨"m", some "k", fun _ _ => .ok [("text", .str "hi")]⟩⟩
      "hello" none).2 = .ok ⟨[.str "hi"], .dict []⟩ :=
  run_reshapes_provider_response
    ⟨defaultApiKey, "m", [], none, ⟨"m", some "k", fun _ _ => .ok [("text", .str "hi")]⟩⟩
    "hello" none [("text", .str "hi")] (.str "hi") rfl rfl

/-- C8: if the provider client's `generate` call fails, `run` propagates
exactly that failure to the caller: the same error value, unchanged, with no
result produced (the definition of `run` invokes `generate` exactly once and
has no other path touching it, so there is no retry and no fallback). -/
theorem run_propagates_provider_failure (g : UnifyGenerator) (prompt : String)
    (ckw : Option Dict) (e : UnifyError)
    (hgen : g.client.generate prompt
        (filteredKwargs (mergedKwargs g.generation_kwargs ckw)) = .error e) :
    (g.run prompt ckw).2 = .error e := by
  unfold UnifyGenerator.run
  dsimp only
  rw [hgen]

/-- Witness for C8: a stub client that always raises makes `run` surface
exactly that error. -/
theorem run_propagates_provider_failure_witness :
    (UnifyGenerator.run
      ⟨defaultApiKey, "m", [], none,
        ⟨"m", some "k", fun _ _ => .error (.providerError "boom")⟩⟩
      "hello" none).2 = .error (.providerError "boom") :=
  run_propagates_provider_failure
    ⟨defaultApiKey, "m", [], none,
      ⟨"m", some "k", fun _ _ => .error (.providerError "boom")⟩⟩
    "hello" none (.providerError "boom") rfl

/-- C10: `run` never mutates the component: on every path (provider error,
response without a `text` key, successful reshaping) the component state
returned by the state-passing embedding is exactly the input state, so the
stored credential, model id, default options, streaming callback and client
handle are unchanged, for every prompt and per-call options, colliding or
not (the merge builds a fresh mapping and only reads the stored one). -/
theorem run_preserves_component_state (g : UnifyGenerator) (prompt : String)
    (ckw : Option Dict) :
    (g.run prompt ckw).1 = g := by
  unfold UnifyGenerator.run
  dsimp only
  split
  · rfl
  · split <;> rfl

/-- C7: construction fails exactly when credential resolution fails, with the
resolution error propagated; on resolution failure the result is the same for
every provider-client constructor, i.e. the failure happens before any
interaction with the provider is attempted, and on resolution success
construction always succeeds, so resolution failure is the only failure mode
at construction time. -/
theorem construct_fails_only_on_credential_resolution (env : Env) (api_key : Secret)
    (model : String) (cb : Option Callback) (gkw : Option Dict) :
    (∀ e, api_key.resolveValue env = .error e →
        ∀ unify, UnifyGenerator.construct env unify api_key model cb gkw = .error e)
    ∧ (∀ v, api_key.resolveValue env = .ok v →
        ∀ unify, UnifyGenerator.construct env unify api_key model cb gkw =
          .ok ⟨api_key, model, gkw.getD [], cb, unify model v⟩) := by
  constructor
  · intro e he unify
    simp [UnifyGenerator.construct, he]
  · intro v hv unify
    simp [UnifyGenerator.construct, hv]

/-- Witness for C7: with an empty environment and the default strict
environment-variable credential, construction fails with the propagated
resolution error, for a concrete provider-client constructor. -/
theorem construct_fails_only_on_credential_resolution_witness :
    UnifyGenerator.construct [] (fun m v => ⟨m, v, fun _ _ => .ok []⟩)
      defaultApiKey DEFAULT_MODEL none none
      = .error (.valueError "None of the authentication environment variables are set") :=
  (construct_fails_only_on_credential_resolution [] defaultApiKey DEFAULT_MODEL none none).1
    (.valueError "None of the authentication environment variables are set") rfl
    (fun m v => ⟨m, v, fun _ _ => .ok []⟩)

/-- C9 (amended): with a non-None streaming callback, `to_dict` always fails
with a name-resolution error (the callback serializer `serialize_callable` is
an undefined name in the module); with a None streaming callback the
callback-serialization step is skipped and, provided the credential is an
environment-variable reference, the exported mapping is produced.  (The
original claim is amended because a component whose credential is a raw
token makes the credential-serialization step of `to_dict` fail even with no
callback, so callback absence alone does not guarantee a mapping.) -/
theorem to_dict_requires_no_callback (g : UnifyGenerator) :
    (∀ cb, g.streaming_callback = some cb →
        g.to_dict = .error (.nameError "serialize_callable"))
    ∧ (∀ vars strict, g.streaming_callback = none → g.api_key = .envVar vars strict →
        g.to_dict = .ok (default_to_dict TYPE_NAME
          [("model", .str g.model),
           ("streaming_callback", .null),
           ("generation_kwargs", .dict g.generation_kwargs),
           ("api_key", .dict [("type", .str "env_var"),
                              ("env_vars", .list (vars.map Value.str)),
                              ("strict", .bool strict)])])) := by
  constructor
  · intro cb hcb
    simp [UnifyGenerator.to_dict, hcb]
  · intro vars strict hcb hak
    simp [UnifyGenerator.to_dict, hcb, hak, Secret.to_dict]

/-- Counterexample to C9 as stated: a concrete component whose streaming
callback is None but whose `to_dict` does not produce a mapping — it fails
with the credential-serialization error, because the credential is a raw
token. -/
theorem to_dict_none_callback_failure_counterexample :
    (UnifyGenerator.streaming_callback
        ⟨.token "tok", "m", [], none, ⟨"m", some "tok", fun _ _ => .ok []⟩⟩ = none)
    ∧ UnifyGenerator.to_dict
        ⟨.token "tok", "m", [], none, ⟨"m", some "tok", fun _ _ => .ok []⟩⟩
        = .error (.valueError "Cannot serialize token-based secret") :=
  ⟨rfl, rfl⟩

/-- Witness for the amended C9: a component with a callback fails with the
name-resolution error, and the same component without the callback exports a
mapping. -/
theorem to_dict_requires_no_callback_witness :
    UnifyGenerator.to_dict
        ⟨defaultApiKey, "m", [], some (fun _ => ()), ⟨"m", some "k", fun _ _ => .ok []⟩⟩
        = .error (.nameError "serialize_callable")
    ∧ UnifyGenerator.to_dict
        ⟨defaultApiKey, "m", [], none, ⟨"m", some "k", fun _ _ => .ok []⟩⟩
        = .ok (default_to_dict TYPE_NAME
          [("model", .str "m"),
           ("streaming_callback", .null),
           ("generation_kwargs", .dict []),
           ("api_key", .dict [("type", .str "env_var"),
                              ("env_vars", .list [.str "UNIFY_API_KEY"]),
                              ("strict", .bool true)])]) :=
  ⟨(to_dict_requires_no_callback
      ⟨defaultApiKey, "m", [], some (fun _ => ()), ⟨"m", some "k", fun _ _ => .ok []⟩⟩).1
      (fun _ => ()) rfl,
   (to_dict_requires_no_callback
      ⟨defaultApiKey, "m", [], none, ⟨"m", some "k", fun _ _ => .ok []⟩⟩).2
      ["UNIFY_API_KEY"] true rfl rfl⟩

/-- C6: whenever `to_dict` produces a mapping, the credential appears in it
exactly as the `Secret`'s own serialized reference form under the `api_key`
key of `init_parameters`, and the resolved secret value never appears
anywhere in the mapping: any string distinct from the export's fixed tag
strings, the model id, the referenced environment-variable names and the
strings occurring in the default options does not occur in the export — in
particular whatever value the credential's environment variable holds. -/
theorem export_hides_resolved_secret (g : UnifyGenerator) (vars : List String)
    (strict : Bool) (d : Value) (sv : String)
    (hak : g.api_key = .envVar vars strict)
    (hd : g.to_dict = .ok d)
    (hfixed : sv ∉ exportFixedStrings)
    (hmodel : sv ≠ g.model)
    (hkw : ¬ OccursIn sv (.dict g.generation_kwargs))
    (hvars : sv ∉ vars) :
    (∃ refv, Secret.to_dict g.api_key = .ok refv
        ∧ ∃ ip, d = .dict [("type", .str TYPE_NAME), ("init_parameters", .dict ip)]
            ∧ dictLookup ip "api_key" = some refv)
    ∧ ¬ OccursIn sv d := by
  cases hcb : g.streaming_callback with
  | some cb =>
    rw [(to_dict_requires_no_callback g).1 cb hcb] at hd
    exact absurd hd (by simp)
  | none =>
    rw [(to_dict_requires_no_callback g).2 vars strict hcb hak] at hd
    obtain rfl : d = _ := (Except.ok.injEq _ _).mp hd.symm
    simp only [exportFixedStrings, List.mem_cons, List.not_mem_nil, or_false, not_or] at hfixed
    obtain ⟨h1, h2, h3, h4, h5, h6, h7, h8, h9, h10⟩ := hfixed
    constructor
    · exact ⟨_, by simp [hak, Secret.to_dict], _, rfl, rfl⟩
    · intro hocc
      simp [default_to_dict, List.mem_map, h1, h2, h3, h4, h5, h6, h7, h8, h9, h10,
        hmodel, hkw, hvars] at hocc

/-- Witness for C6: a concrete export holds the credential as its
environment-variable reference under `api_key`, and a concrete secret value
(distinct from the component's fixed strings) does not occur anywhere in
it. -/
theorem export_hides_resolved_secret_witness :
    (∃ refv, Secret.to_dict (UnifyGenerator.api_key
          ⟨defaultApiKey, "m", [("temperature", .int 1)], none,
            ⟨"m", some "k", fun _ _ => .ok []⟩⟩) = .ok refv
        ∧ ∃ ip, (default_to_dict TYPE_NAME
              [("model", .str "m"),
               ("streaming_callback", .null),
               ("generation_kwargs", .dict [("temperature", .int 1)]),
               ("api_key", .dict [("type", .str "env_var"),
                                  ("env_vars", .list [.str "UNIFY_API_KEY"]),
                                  ("strict", .bool true)])])
              = .dict [("type", .str TYPE_NAME), ("init_parameters", .dict ip)]
            ∧ dictLookup ip "api_key" = some refv)
    ∧ ¬ OccursIn "sk-secret-123" (default_to_dict TYPE_NAME
          [("model", .str "m"),
           ("streaming_callback", .null),
           ("generation_kwargs", .dict [("temperature", .int 1)]),
           ("api_key", .dict [("type", .str "env_var"),
                              ("env_vars", .list [.str "UNIFY_API_KEY"]),
                              ("strict", .bool true)])]) :=
  export_hides_resolved_secret
    ⟨defaultApiKey, "m", [("temperature", .int 1)], none, ⟨"m", some "k", fun _ _ => .ok []⟩⟩
    ["UNIFY_API_KEY"] true
    (default_to_dict TYPE_NAME
      [("model", .str "m"),
       ("streaming_callback", .null),
       ("generation_kwargs", .dict [("temperature", .int 1)]),
       ("api_key", .dict [("type", .str "env_var"),
                          ("env_vars", .list [.str "UNIFY_API_KEY"]),
                          ("strict", .bool true)])])
    "sk-secret-123" rfl rfl (by decide) (by decide) (by simp) (by decide)

/-- C2 is a code bug: exporting a concrete component's state succeeds, but
importing any state — the freshly exported one included — fails with the
name-resolution error for `deserialize_secrets_inplace`, which the module
never imports, so export-then-import never yields a component at all. -/
theorem roundtrip_broken_by_from_dict :
    UnifyGenerator.to_dict
        ⟨defaultApiKey, "m", [("temperature", .int 1)], none,
          ⟨"m", some "k", fun _ _ => .ok []⟩⟩
      = .ok (default_to_dict TYPE_NAME
          [("model", .str "m"),
           ("streaming_callback", .null),
           ("generation_kwargs", .dict [("temperature", .int 1)]),
           ("api_key", .dict [("type", .str "env_var"),
                              ("env_vars", .list [.str "UNIFY_API_KEY"]),
                              ("strict", .bool true)])])
    ∧ ∀ state, UnifyGenerator.from_dict state
        = .error (.nameError "deserialize_secrets_inplace") :=
  ⟨rfl, fun _ => rfl⟩

/-- C3 is a code bug: on a state mapping lacking any credential reference,
`from_dict` does fail and the failure is surfaced, but it is the
name-resolution error for the never-imported `deserialize_secrets_inplace`,
raised before the state is inspected, not a configuration error about the
missing credential. -/
theorem from_dict_missing_credential_name_error :
    UnifyGenerator.from_dict
        (.dict [("type", .str TYPE_NAME), ("init_parameters", .dict [("model", .str "m")])])
      = .error (.nameError "deserialize_secrets_inplace") := rfl

end UnifySpec
